import Mathlib

/-!
Verification of the voltha rw_core device-coordination engine:
device ownership arbiter, adapter registry and device manager,
shallowly embedded from rw_core/core/device_ownership.go and
rw_core/core/device_manager.go.  Go maps are embedded as association
lists, goroutine-local loop bodies as single-step functions over the
shared state, and external collaborators (the KV client, the adapter
proxy, the logical-device manager) as oracle parameters.
-/

namespace Voltha

/-! ## Errors

Go errors are either grpc status errors carrying a code (built with
status.Error / status.Errorf) or plain errors built with errors.New /
fmt.Errorf, which carry no status code. -/

/-- The grpc status codes used by this core. -/
inductive ErrCode where
  | notFound
  | alreadyExists
  | invalidArgument
  | failedPrecondition
  | aborted
  | dataLoss
deriving DecidableEq

/-- A Go error value: a grpc status error with a code, or a plain error
with only a message (errors.New / fmt.Errorf), which has no status code. -/
inductive GoErr where
  | grpc (code : ErrCode) (msg : String)
  | plain (msg : String)
deriving DecidableEq

/-- True exactly for a grpc status error whose code is FailedPrecondition. -/
def GoErr.isFailedPrecondition : GoErr → Bool
  | .grpc .failedPrecondition _ => true
  | _ => false

/-- Message carried by an error (used when a caller wraps err.Error). -/
def GoErr.msg : GoErr → String
  | .grpc _ m => m
  | .plain m => m

/-! ## Association lists standing for Go maps

A Go map is embedded as an association list whose keys are unique by
construction: insertion removes any previous binding of the key. -/

/-- Insertion into a Go map: bind key k to v, dropping any old binding. -/
def assocInsert (l : List (String × α)) (k : String) (v : α) : List (String × α) :=
  (k, v) :: l.filter (fun p => p.fst != k)

/-! ## Device Ownership Arbiter (device_ownership.go)

The KV client is an external collaborator; the outcome of each
kvClient.Reserve round trip is passed in as an oracle value.  A value
returned by the KV store either decodes to a string or does not
(kvstore.ToString; modelled as returning the zero value, the empty
string, together with an error for a value that is not a string). -/

/-- A value returned by kvClient.Reserve: decodable to a string or not. -/
inductive KVVal where
  | decodable (s : String)
  | undecodable
deriving DecidableEq

/-- Modelled from the spec: kvstore.ToString (db/kvstore, not under src)
decodes byte or string values to a string and fails on any other type,
returning the zero value, the empty string, alongside the error. -/
def kvToString : KVVal → String × Bool
  | .decodable s => (s, true)
  | .undecodable => ("", false)

/-- Per-device ownership entry (struct ownership; the monitor channel is
not representable and is tracked outside the entry). -/
structure Ownership where
  id : String
  owned : Bool
deriving DecidableEq

/-- DeviceOwnership state: the replica instance id and the device map.
The kv client, timeouts and channels are external or not representable. -/
structure DeviceOwnership where
  instanceId : String
  deviceMap : List (String × Ownership)
deriving DecidableEq

/-- tryToReserveKey: given the oracle outcome of kvClient.Reserve on the
ownership key, return whether the (decoded) current owner equals this
instance id; a nil value yields false; a failed decode leaves the
candidate owner equal to the empty string. -/
def tryToReserveKey (da : DeviceOwnership) (value : Option KVVal) : Bool :=
  match value with
  | some v => (kvToString v).fst == da.instanceId
  | none => false

/-- Result of getOwnership: the returned bool, the new state, how many
KV reservation attempts were made, and whether a monitor was spawned. -/
structure GetOwnershipRes where
  result : Bool
  state : DeviceOwnership
  reserveCalls : Nat
  monitorSpawned : Bool
deriving DecidableEq

/-- getOwnership (the body of OwnedByMe): return the recorded owned flag
when an entry exists; otherwise attempt one reservation, record the
outcome in a new entry, spawn the monitoring goroutine and return it. -/
def getOwnership (da : DeviceOwnership) (id : String) (reserveRes : Option KVVal) :
    GetOwnershipRes :=
  match da.deviceMap.lookup id with
  | some o => ⟨o.owned, da, 0, false⟩
  | none =>
    let reservedByMe := tryToReserveKey da reserveRes
    ⟨reservedByMe,
     { da with deviceMap := assocInsert da.deviceMap id ⟨id, reservedByMe⟩ },
     1, true⟩

/-- OwnedByMe delegates to getOwnership. -/
def OwnedByMe (da : DeviceOwnership) (id : String) (reserveRes : Option KVVal) :
    GetOwnershipRes :=
  getOwnership da id reserveRes

/-- setOwnership: overwrite the owned flag of an existing entry, or fail
with NotFound when the id has no entry. -/
def setOwnership (da : DeviceOwnership) (id : String) (owner : Bool) :
    Except GoErr DeviceOwnership :=
  match da.deviceMap.lookup id with
  | some o =>
    .ok { da with deviceMap := assocInsert da.deviceMap id { o with owned := owner } }
  | none => .error (.grpc .notFound ("id-inexistent-" ++ id))

/-- One iteration of the startOwnershipMonitoring loop body: when the
entry exists and is owned, renew the reservation on the KV store, where
a renewal failure (renewErr) is only logged and changes nothing locally;
otherwise retry the reservation and store its outcome via setOwnership.
The reserve outcome oracle reflects the current KV lease holder. -/
def monitorTick (da : DeviceOwnership) (id : String) (reserveRes : Option KVVal)
    (_renewErr : Bool) : DeviceOwnership :=
  let entry := da.deviceMap.lookup id
  if (entry.map Ownership.owned).getD false then
    -- renew path: kvClient.RenewReservation; on error only log.Errorw
    da
  else
    match setOwnership da id (tryToReserveKey da reserveRes) with
    | .ok da2 => da2
    | .error _ => da

/-! ## Adapter Registry (AdapterManager, second half of device_ownership.go)

Timestamps are embedded as integer nanoseconds since the unix epoch.
The golang ptypes timestamp conversions accept only times between the
years 1 and 10000: both ptypes.Timestamp (decode, also failing on a nil
proto) and ptypes.TimestampProto (encode) fail outside that range. -/

def SentinelAdapterID : String := "adapter_sentinel"

def SentinelDevicetypeID : String := "device_type_sentinel"

/-- Smallest valid ptypes timestamp, in nanoseconds (year 1). -/
def tsMinNs : Int := -62135596800 * 1000000000

/-- One past the largest valid ptypes timestamp, in nanoseconds (year 10000). -/
def tsMaxNs : Int := 253402300800 * 1000000000

/-- Whether a time is representable as a ptypes timestamp proto. -/
def validTs (t : Int) : Bool := decide (tsMinNs ≤ t) && decide (t < tsMaxNs)

/-- An adapter record: id and the LastCommunication timestamp proto,
none standing for a nil proto field. -/
structure Adapter where
  id : String
  lastCommunication : Option Int
deriving DecidableEq

/-- Whether ptypes.Timestamp decodes the stored LastCommunication without
error: it fails on a nil proto and on an out-of-range value. -/
def storedDecodeOk (lastComm : Option Int) : Bool :=
  match lastComm with
  | some last => validTs last
  | none => false

/-- updateCommunicationTime (on the agent-held adapter record): update
LastCommunication iff the new time is not in the future and either the
stored value fails to decode or the new time is strictly after it; if the
new time cannot be encoded as a timestamp proto it is ignored. -/
def updateCommunicationTime (adapter : Adapter) (t : Int) (now : Int) : Adapter :=
  let decodeOk := storedDecodeOk adapter.lastCommunication
  let last := adapter.lastCommunication.getD 0
  if ¬ (now < t) ∧ (decodeOk = false ∨ last < t) then
    if validTs t then { adapter with lastCommunication := some t } else adapter
  else adapter

/-- A device type record: id and the id of the owning adapter. -/
structure DeviceType where
  id : String
  adapter : String
deriving DecidableEq

/-- An adapter agent: the adapter record plus its device-type map. -/
structure AdapterAgent where
  adapter : Adapter
  deviceTypes : List (String × DeviceType)
deriving DecidableEq

/-- newAdapterAgent: build the device-type map from the given items. -/
def newAdapterAgent (adapter : Adapter) (deviceTypes : Option (List DeviceType)) :
    AdapterAgent :=
  ⟨adapter, (deviceTypes.getD []).foldl (fun m dt => assocInsert m dt.id dt) []⟩

/-- AdapterAgent.getDeviceType: map lookup. -/
def AdapterAgent.getDeviceType (aa : AdapterAgent) (deviceType : String) :
    Option DeviceType :=
  aa.deviceTypes.lookup deviceType

/-- AdapterAgent.updateDeviceType: map overwrite. -/
def AdapterAgent.updateDeviceType (aa : AdapterAgent) (deviceType : DeviceType) :
    AdapterAgent :=
  { aa with deviceTypes := assocInsert aa.deviceTypes deviceType.id deviceType }

/-- AdapterManager state: the two in-memory maps. The cluster data proxy
and kafka client are external collaborators. -/
structure AdapterManager where
  adapterAgents : List (String × AdapterAgent)
  deviceTypeToAdapterMap : List (String × String)
deriving DecidableEq

/-- addAdapter, in-memory effect on the success path: insert a fresh
agent if the adapter id is absent (KV persistence is an external
side effect; a KV failure aborts before the in-memory insert). -/
def addAdapter (aMgr : AdapterManager) (adapter : Adapter) : AdapterManager :=
  if (aMgr.adapterAgents.lookup adapter.id).isSome then aMgr
  else { aMgr with
         adapterAgents :=
           assocInsert aMgr.adapterAgents adapter.id (newAdapterAgent adapter none) }

/-- addDeviceTypes, in-memory effect on the success path: for each device
type, route it to its adapter agent (creating the agent from the whole
item list when absent) and bind it in the device-type-to-adapter map. -/
def addDeviceTypes (aMgr : AdapterManager) (deviceTypes : List DeviceType) :
    AdapterManager :=
  deviceTypes.foldl
    (fun m dt =>
      let m2 :=
        match m.adapterAgents.lookup dt.adapter with
        | some aa =>
          { m with adapterAgents :=
              assocInsert m.adapterAgents dt.adapter (aa.updateDeviceType dt) }
        | none =>
          { m with adapterAgents :=
              (assocInsert m.adapterAgents dt.adapter
                (newAdapterAgent ⟨dt.adapter, none⟩ (some deviceTypes))) }
      { m2 with deviceTypeToAdapterMap :=
          assocInsert m2.deviceTypeToAdapterMap dt.id dt.adapter })
    aMgr

/-- listAdapters: every non-sentinel adapter held by an agent (the Go
code clones each record; clones are identities here). -/
def listAdapters (aMgr : AdapterManager) : List Adapter :=
  aMgr.adapterAgents.filterMap
    (fun p =>
      let a := p.snd.adapter
      if a.id = SentinelAdapterID then none else some a)

/-- getAdapterName: bare lookup in the device-type-to-adapter map, with
no sentinel filtering. -/
def getAdapterName (aMgr : AdapterManager) (deviceType : String) :
    Except String String :=
  match aMgr.deviceTypeToAdapterMap.lookup deviceType with
  | some adapterID => .ok adapterID
  | none => .error ("Adapter-not-registered-for-device-type " ++ deviceType)

/-- listDeviceTypes: for each bound device type resolve its agent and
record, reporting every non-sentinel device type found. -/
def listDeviceTypes (aMgr : AdapterManager) : List DeviceType :=
  aMgr.deviceTypeToAdapterMap.filterMap
    (fun p =>
      match aMgr.adapterAgents.lookup p.snd with
      | some aa =>
        match aa.getDeviceType p.fst with
        | some dt => if dt.id = SentinelDevicetypeID then none else some dt
        | none => none
      | none => none)

/-- Conversion of a kafka epoch-milliseconds stamp to a time, following
time.Unix(timestamp/1000, timestamp%1000*1000) with Go truncated integer
division; note the second argument is nanoseconds, so the code keeps
only a microsecond-scale remainder. -/
def msToTime (timestamp : Int) : Int :=
  (Int.tdiv timestamp 1000) * 1000000000 + (Int.tmod timestamp 1000) * 1000

/-- updateLastAdapterCommunication: look the adapter agent up and, when
present, apply updateCommunicationTime with the converted stamp. -/
def updateLastAdapterCommunication (aMgr : AdapterManager) (adapterID : String)
    (timestamp : Int) (now : Int) : AdapterManager :=
  match aMgr.adapterAgents.lookup adapterID with
  | some aa =>
    { aMgr with adapterAgents :=
        (assocInsert aMgr.adapterAgents adapterID
          { aa with adapter := updateCommunicationTime aa.adapter (msToTime timestamp) now }) }
  | none => aMgr

/-! ## Device Manager (device_manager.go)

The device agent (device_agent.go, not under src) is modelled from the
spec: it holds its device record; start with from_existing=true hydrates
the record from the KV store by device id and fails with not-found when
absent; start with from_existing=false persists the in-memory record;
getDevice returns the held record.  The cluster data proxy is embedded
as an association list kv inside the manager state.  The unbounded Go
recursion of load through parent ids is given explicit fuel; every run
in this development uses enough fuel for the chains it touches. -/

/-- Device administrative states (voltha.AdminState). -/
inductive AdminState where
  | unknown
  | preprovisioned
  | enabled
  | disabled
  | deleted
deriving DecidableEq

/-- Port types (voltha.Port); only the distinctions the manager reads. -/
inductive PortType where
  | etherNNI
  | etherUNI
  | pon
  | other
deriving DecidableEq

/-- A peer back-reference on a port. -/
structure PeerPort where
  deviceId : String
  portNo : Nat
deriving DecidableEq

/-- A device port: number, type and the peer list. -/
structure Port where
  portNo : Nat
  portType : PortType
  peers : List PeerPort
deriving DecidableEq

/-- A proxy address (parent device id, parent device type, channel id,
onu id).  The Go field is a pointer which GetChildDevice dereferences
unconditionally; it is embedded as always present. -/
structure ProxyAddress where
  deviceId : String
  deviceType : String
  channelId : Nat
  onuId : Nat
deriving DecidableEq

/-- The device record fields this core reads (dtype stands for the Go
field named type, a reserved word here). -/
structure Device where
  id : String
  dtype : String
  root : Bool
  parentId : String
  parentPortNo : Nat
  serialNumber : String
  vendorId : String
  adminState : AdminState
  proxyAddress : ProxyAddress
  ports : List Port
deriving DecidableEq

/-- A baseline device record for building concrete instances. -/
def devBase : Device :=
  ⟨"", "", false, "", 0, "", "", .unknown, ⟨"", "", 0, 0⟩, []⟩

/-- Modelled from the spec: a device agent holds its device record and
serves getDevice from it. -/
structure DeviceAgent where
  deviceId : String
  device : Device
deriving DecidableEq

/-- DeviceManager state: the agent table and the cluster-data-proxy
contents (device records under their ids). -/
structure DeviceManager where
  deviceAgents : List (String × DeviceAgent)
  kv : List (String × Device)
deriving DecidableEq

/-- addDeviceAgentToMap: insert the agent only when its device id is not
yet bound. -/
def addDeviceAgentToMap (m : List (String × DeviceAgent)) (agent : DeviceAgent) :
    List (String × DeviceAgent) :=
  match m.lookup agent.deviceId with
  | some _ => m
  | none => assocInsert m agent.deviceId agent

/-- IsDeviceInCache: membership in the agent table. -/
def IsDeviceInCache (dMgr : DeviceManager) (id : String) : Bool :=
  (dMgr.deviceAgents.lookup id).isSome

/-- loadDevice: reject an empty id; return the resident agent when
cached; otherwise hydrate a fresh agent from the KV record (modelled
agent start with from_existing=true), registering it on success and
failing with not-found when the KV has no record. -/
def loadDevice (dMgr : DeviceManager) (deviceId : String) :
    DeviceManager × Except GoErr DeviceAgent :=
  if deviceId = "" then
    (dMgr, .error (.grpc .invalidArgument "deviceId empty"))
  else
    match dMgr.deviceAgents.lookup deviceId with
    | some agent => (dMgr, .ok agent)
    | none =>
      match dMgr.kv.lookup deviceId with
      | some d =>
        let agent : DeviceAgent := ⟨deviceId, d⟩
        ({ dMgr with deviceAgents := addDeviceAgentToMap dMgr.deviceAgents agent },
         .ok agent)
      | none => (dMgr, .error (.grpc .notFound deviceId))

/-- getAllChildDeviceIds: flatten the peer device ids of every port,
keeping multiplicity. -/
def getAllChildDeviceIds (parentDevice : Device) : List String :=
  parentDevice.ports.flatMap (fun port => port.peers.map PeerPort.deviceId)

/-- Child loading inside loadRootDeviceParentAndChildren: loadDevice on
each child id, stopping at the first failure. -/
def loadChildren (dMgr : DeviceManager) : List String → DeviceManager × Option GoErr
  | [] => (dMgr, none)
  | c :: rest =>
    match loadDevice dMgr c with
    | (dMgr2, .ok _) => loadChildren dMgr2 rest
    | (dMgr2, .error e) => (dMgr2, some e)

/-- loadRootDeviceParentAndChildren: for a root device, load the logical
device (external collaborator, failures only logged) and every child by
id. -/
def loadRootDeviceParentAndChildren (dMgr : DeviceManager) (device : Device) :
    DeviceManager × Option GoErr :=
  if device.root then loadChildren dMgr (getAllChildDeviceIds device)
  else (dMgr, none)

/-- load: hydrate the device itself; stop there when it is in
pre-provisioning or deleted state; load children for a root, and recurse
into the parent id for a non-root device (fuel bounds the Go stack). -/
def load : Nat → DeviceManager → String → DeviceManager × Option GoErr
  | 0, dMgr, _ => (dMgr, some (.plain "fuel exhausted"))
  | Nat.succ fuel, dMgr, deviceId =>
    match loadDevice dMgr deviceId with
    | (dMgr2, .error e) => (dMgr2, some e)
    | (dMgr2, .ok agent) =>
      let device := agent.device
      if device.adminState = .preprovisioned ∨ device.adminState = .deleted then
        (dMgr2, none)
      else if device.root then
        loadRootDeviceParentAndChildren dMgr2 device
      else if device.parentId ≠ "" then
        load fuel dMgr2 device.parentId
      else
        (dMgr2, none)

/-- getDeviceAgent: resident agent, or load and look the table up again. -/
def getDeviceAgent (fuel : Nat) (dMgr : DeviceManager) (deviceId : String) :
    DeviceManager × Option DeviceAgent :=
  match dMgr.deviceAgents.lookup deviceId with
  | some agent => (dMgr, some agent)
  | none =>
    match load fuel dMgr deviceId with
    | (dMgr2, none) => (dMgr2, dMgr2.deviceAgents.lookup deviceId)
    | (dMgr2, some _) => (dMgr2, none)

/-- GetDevice: the resolved agent record, or not-found. -/
def GetDevice (fuel : Nat) (dMgr : DeviceManager) (id : String) :
    DeviceManager × Except GoErr Device :=
  match getDeviceAgent fuel dMgr id with
  | (dMgr2, some agent) => (dMgr2, .ok agent.device)
  | (dMgr2, none) => (dMgr2, .error (.grpc .notFound id))

/-- Conversion of a Go int64 to uint32: truncation modulo 2 ^ 32. -/
def uint32ofInt (i : Int) : Nat := (i % 4294967296).toNat

/-- The per-child matching test of the GetChildDevice loop: the onu id
match requires the converted onu id and the converted parent port both
to agree; the serial match compares serial numbers; both are required
when onuId is positive and serialNumber non-empty, either suffices
otherwise. -/
def childMatches (d : Device) (serialNumber : String) (onuId parentPortNo : Int) :
    Bool :=
  let foundOnuId :=
    d.proxyAddress.onuId == uint32ofInt onuId && d.parentPortNo == uint32ofInt parentPortNo
  let foundSerialNumber := d.serialNumber == serialNumber
  if onuId > 0 && serialNumber != "" then foundOnuId && foundSerialNumber
  else foundOnuId || foundSerialNumber

/-- The GetChildDevice search loop: fetch each child id in order, skip
fetch failures, stop at the first fetched device that matches. -/
def findFirstChild (fuel : Nat) (dMgr : DeviceManager) (serialNumber : String)
    (onuId parentPortNo : Int) : List String → DeviceManager × Option Device
  | [] => (dMgr, none)
  | c :: rest =>
    match GetDevice fuel dMgr c with
    | (dMgr2, .ok searchDevice) =>
      if childMatches searchDevice serialNumber onuId parentPortNo then
        (dMgr2, some searchDevice)
      else
        findFirstChild fuel dMgr2 serialNumber onuId parentPortNo rest
    | (dMgr2, .error _) => findFirstChild fuel dMgr2 serialNumber onuId parentPortNo rest

/-- GetChildDevice: fetch the parent (aborted on failure), enumerate its
child ids (not-found when none), run the matching loop, and report the
first match or not-found. -/
def GetChildDevice (fuel : Nat) (dMgr : DeviceManager)
    (parentDeviceId serialNumber : String) (onuId parentPortNo : Int) :
    DeviceManager × Except GoErr Device :=
  match GetDevice fuel dMgr parentDeviceId with
  | (dMgr1, .error e) => (dMgr1, .error (.grpc .aborted e.msg))
  | (dMgr1, .ok parentDevice) =>
    let childDeviceIds := getAllChildDeviceIds parentDevice
    if childDeviceIds.length = 0 then
      (dMgr1, .error (.grpc .notFound parentDeviceId))
    else
      match findFirstChild fuel dMgr1 serialNumber onuId parentPortNo childDeviceIds with
      | (dMgr2, some d) => (dMgr2, .ok d)
      | (dMgr2, none) => (dMgr2, .error (.grpc .notFound parentDeviceId))

/-- createDevice: stamp root true, build the agent, insert it with
addDeviceAgentToMap, start it with from_existing=false (modelled from
the spec: persist the in-memory record; lastData is the persisted
snapshot, which is returned). -/
def createDevice (dMgr : DeviceManager) (device : Device) : DeviceManager × Device :=
  let stamped := { device with root := true }
  let agent : DeviceAgent := ⟨stamped.id, stamped⟩
  ({ dMgr with
     deviceAgents := addDeviceAgentToMap dMgr.deviceAgents agent,
     kv := assocInsert dMgr.kv stamped.id stamped },
   stamped)

/-- The ReconcileDevices loop: an id counts as reconciled when already
resident or when the fresh agent starts from an existing KV record;
hydration failures stop the agent and do not register it. -/
def reconcileIds (dMgr : DeviceManager) : List String → DeviceManager × Nat
  | [] => (dMgr, 0)
  | id :: rest =>
    let step : DeviceManager × Nat :=
      if IsDeviceInCache dMgr id then (dMgr, 1)
      else
        match dMgr.kv.lookup id with
        | some d =>
          ({ dMgr with deviceAgents := addDeviceAgentToMap dMgr.deviceAgents ⟨id, d⟩ }, 1)
        | none => (dMgr, 0)
    let next := reconcileIds step.fst rest
    (next.fst, step.snd + next.snd)

/-- ReconcileDevices: nil id list yields invalid-argument; otherwise run
the loop and yield data-loss when fewer ids were reconciled than
requested, success otherwise. -/
def ReconcileDevices (dMgr : DeviceManager) (ids : Option (List String)) :
    DeviceManager × Option GoErr :=
  match ids with
  | some items =>
    let toReconcile := items.length
    let result := reconcileIds dMgr items
    if toReconcile ≠ result.snd then
      (result.fst, some (.grpc .dataLoss "less-device-reconciled"))
    else
      (result.fst, none)
  | none => (dMgr, some (.grpc .invalidArgument "empty-list-of-ids"))

/-! ## Transition handling (processTransition, notAllowed) -/

/-- A transition handler: a callback over the device record returning an
optional error. -/
def TransitionHandler : Type := Device → Option GoErr

/-- notAllowed: a plain error built with errors.New, carrying no grpc
status code. -/
def notAllowed : TransitionHandler := fun _ => some (.plain "Transition-not-allowed")

/-- The processTransition loop: run handlers in order, stopping at the
first error; also report how many handlers actually ran. -/
def runHandlers (d : Device) : List TransitionHandler → Option GoErr × Nat
  | [] => (none, 0)
  | h :: rest =>
    match h d with
    | some err => (some err, 1)
    | none =>
      let r := runHandlers d rest
      (r.fst, r.snd + 1)

/-- processTransition: the transition-map lookup result is passed in (the
transition map itself is not under src); a nil handler list is a no-op
returning success, otherwise the loop result is returned. -/
def processTransition (handlers : Option (List TransitionHandler)) (current : Device) :
    Option GoErr :=
  match handlers with
  | none => none
  | some hs => (runHandlers current hs).fst

/-! ## Claim-side definitions

The following definitions word properties the way the claims and the
spec state them; the theorems below compare them with the embedded
source behaviour. -/

/-- The child matching rule exactly as the claim words it, with plain
integer equality and no uint32 conversion: an onu id match requires the
onu id and the parent port both to equal the arguments, a serial match
requires equal serial numbers; both are required when onuId is positive
and serialNo non-empty, either suffices otherwise. -/
def claimChildMatch (d : Device) (serialNo : String) (onuId parentPort : Int) : Bool :=
  let onuMatch :=
    ((d.proxyAddress.onuId : Int) == onuId) && ((d.parentPortNo : Int) == parentPort)
  let serialMatch := d.serialNumber == serialNo
  if onuId > 0 && serialNo != "" then onuMatch && serialMatch
  else onuMatch || serialMatch

/-- The last-communication update condition exactly as the claim words
it: the new time is not in the future, and either the stored value is
absent or invalid or the new time is strictly after it (note: no
encodability requirement on the new time itself). -/
def claimUpdateCond (adapter : Adapter) (t now : Int) : Bool :=
  decide (t ≤ now) &&
    (!(storedDecodeOk adapter.lastCommunication)
      || decide (adapter.lastCommunication.getD 0 < t))

/-- The first error in a list of handler outcomes. -/
def firstErr (l : List (Option GoErr)) : Option GoErr :=
  l.findSome? (fun o => o)

/-- How many handlers a sequential first-error-aborts run executes: all
of them when none fails, otherwise the failing handler and those before
it. -/
def executedSpec (l : List (Option GoErr)) : Nat :=
  let pre := (l.takeWhile (fun o => o.isNone)).length
  if pre = l.length then pre else pre + 1

/-! ## Helper lemmas -/

theorem lookup_assocInsert_self (l : List (String × α)) (k : String) (v : α) :
    (assocInsert l k v).lookup k = some v := by
  simp [assocInsert, List.lookup]

theorem lookup_assocInsert_ne (l : List (String × α)) (k k' : String) (v : α)
    (h : k' ≠ k) : (assocInsert l k v).lookup k' = l.lookup k' := by
  have hbeq : (k' == k) = false := beq_eq_false_iff_ne.mpr h
  simp only [assocInsert, List.lookup, hbeq]
  induction l with
  | nil => rfl
  | cons p rest ih =>
    cases p with
    | mk a b =>
      by_cases hak : a = k
      · have hf : (a != k) = false := by simp [hak]
        simp only [List.filter, hf]
        have hka : (k' == a) = false := by
          simp only [beq_eq_false_iff_ne]
          intro hk; exact h (hk.trans hak)
        rw [ih]
        simp only [List.lookup, hka]
      · have hf : (a != k) = true := by simp [hak]
        simp only [List.filter, hf]
        simp only [List.lookup]
        cases hka : (k' == a) with
        | true => rfl
        | false => exact ih

/-! ## Claim C1 -/

/-- C1 (counterexample): with the local entry for device x recording
owned=true while the KV lease for x is held by a different replica (the
reserve oracle reports replicaB as the current owner), the next monitor
tick takes the renew branch, never rereads the owner, and leaves
owned=true even though the renewal also fails; this falsifies the claim
that the monitor does not leave owned=true and that the next tick
observes owned=false after another replica claims the lease. -/
theorem C1_monitor_keeps_owned_counterexample :
    (monitorTick ⟨"replicaA", [("x", ⟨"x", true⟩)]⟩ "x"
        (some (KVVal.decodable "replicaB")) true).deviceMap.lookup "x"
      = some ⟨"x", true⟩ := by decide

/-- C1 (amended): a renew failure alone does not flip owned to false;
stronger, a monitor tick that begins with owned=true leaves the whole
ownership state unchanged whoever holds the KV lease, so owned never
transitions from true to false on a monitor tick; the reserve outcome is
recorded only by a tick that begins with owned=false. -/
theorem C1_monitor_tick_amended (da : DeviceOwnership) (id : String) (o : Ownership)
    (res : Option KVVal) (renewErr : Bool)
    (h : da.deviceMap.lookup id = some o) :
    (o.owned = true → monitorTick da id res renewErr = da)
    ∧ (o.owned = false →
        (monitorTick da id res renewErr).deviceMap.lookup id
          = some ⟨o.id, tryToReserveKey da res⟩) := by
  constructor
  · intro ho
    simp [monitorTick, h, ho]
  · intro ho
    simp [monitorTick, h, ho, setOwnership, lookup_assocInsert_self]

/-- Witness for C1 (amended) at concrete inputs: an owned entry survives
a failing renewal untouched, and a not-owned entry records the negative
retry outcome against a foreign lease holder. -/
theorem C1_monitor_tick_amended_witness :
    monitorTick ⟨"replicaA", [("y", ⟨"y", true⟩)]⟩ "y"
        (some (KVVal.decodable "replicaB")) true
      = ⟨"replicaA", [("y", ⟨"y", true⟩)]⟩
    ∧ (monitorTick ⟨"replicaA", [("z", ⟨"z", false⟩)]⟩ "z"
        (some (KVVal.decodable "replicaB")) false).deviceMap.lookup "z"
      = some ⟨"z", tryToReserveKey ⟨"replicaA", [("z", ⟨"z", false⟩)]⟩
          (some (KVVal.decodable "replicaB"))⟩ :=
  ⟨(C1_monitor_tick_amended ⟨"replicaA", [("y", ⟨"y", true⟩)]⟩ "y" ⟨"y", true⟩
      (some (KVVal.decodable "replicaB")) true rfl).1 rfl,
   (C1_monitor_tick_amended ⟨"replicaA", [("z", ⟨"z", false⟩)]⟩ "z" ⟨"z", false⟩
      (some (KVVal.decodable "replicaB")) false rfl).2 rfl⟩

/-! ## Claim C2 -/

/-- C2: owned_by_me on an id with an existing entry returns the recorded
owned flag, with no new KV reservation and no state change; on an id
with no entry it makes exactly one reservation attempt, records the
outcome in a newly created entry, spawns a monitor task, and returns
true iff the KV reserve returned this replica instance id (the instance
id being a non-empty replica identity). -/
theorem C2_getOwnership_correct (da : DeviceOwnership) (id : String)
    (res : Option KVVal) (hinst : da.instanceId ≠ "") :
    (∀ o, da.deviceMap.lookup id = some o →
        OwnedByMe da id res = ⟨o.owned, da, 0, false⟩)
    ∧ (da.deviceMap.lookup id = none →
        (OwnedByMe da id res).reserveCalls = 1
        ∧ (OwnedByMe da id res).monitorSpawned = true
        ∧ (OwnedByMe da id res).state.deviceMap.lookup id
            = some ⟨id, (OwnedByMe da id res).result⟩
        ∧ ((OwnedByMe da id res).result = true
            ↔ res = some (KVVal.decodable da.instanceId))) := by
  constructor
  · intro o h
    simp [OwnedByMe, getOwnership, h]
  · intro h
    have hiff : tryToReserveKey da res = true
        ↔ res = some (KVVal.decodable da.instanceId) := by
      cases res with
      | none => simp [tryToReserveKey]
      | some v =>
        cases v with
        | decodable s => simp [tryToReserveKey, kvToString]
        | undecodable =>
          simp only [tryToReserveKey, kvToString]
          constructor
          · intro hh
            exact absurd (beq_iff_eq.mp hh).symm hinst
          · intro hh
            exact absurd hh (by simp)
    refine ⟨?_, ?_, ?_, ?_⟩
    · simp [OwnedByMe, getOwnership, h]
    · simp [OwnedByMe, getOwnership, h]
    · simp [OwnedByMe, getOwnership, h, lookup_assocInsert_self]
    · simpa [OwnedByMe, getOwnership, h] using hiff

/-- Witness for C2 on a fresh id whose reservation succeeds. -/
theorem C2_getOwnership_correct_witness :
    (OwnedByMe ⟨"core1", []⟩ "b" (some (KVVal.decodable "core1"))).reserveCalls = 1
    ∧ (OwnedByMe ⟨"core1", []⟩ "b" (some (KVVal.decodable "core1"))).monitorSpawned = true
    ∧ (OwnedByMe ⟨"core1", []⟩ "b"
        (some (KVVal.decodable "core1"))).state.deviceMap.lookup "b"
      = some ⟨"b", (OwnedByMe ⟨"core1", []⟩ "b" (some (KVVal.decodable "core1"))).result⟩
    ∧ ((OwnedByMe ⟨"core1", []⟩ "b" (some (KVVal.decodable "core1"))).result = true
        ↔ some (KVVal.decodable "core1") = some (KVVal.decodable "core1")) :=
  (C2_getOwnership_correct ⟨"core1", []⟩ "b" _ (by decide)).2 rfl

/-! ## Claim C9 -/

/-- C9: addDeviceAgentToMap is insert-if-absent: when the device id is
already mapped to an agent, inserting another agent for the same id
leaves the table unchanged, so a resident id keeps being served by the
first agent registered for it. -/
theorem C9_addDeviceAgentToMap_insert_if_absent
    (m : List (String × DeviceAgent)) (agent existing : DeviceAgent)
    (h : m.lookup agent.deviceId = some existing) :
    addDeviceAgentToMap m agent = m
    ∧ (addDeviceAgentToMap m agent).lookup agent.deviceId = some existing := by
  unfold addDeviceAgentToMap
  rw [h]
  exact ⟨rfl, h⟩

/-- Witness for C9 at a concrete one-entry table. -/
theorem C9_addDeviceAgentToMap_witness :
    addDeviceAgentToMap [("d1", ⟨"d1", devBase⟩)] ⟨"d1", { devBase with id := "d1" }⟩
      = [("d1", ⟨"d1", devBase⟩)]
    ∧ (addDeviceAgentToMap [("d1", ⟨"d1", devBase⟩)]
        ⟨"d1", { devBase with id := "d1" }⟩).lookup "d1"
      = some ⟨"d1", devBase⟩ :=
  C9_addDeviceAgentToMap_insert_if_absent _ _ _ rfl

/-! ## Claim C10 -/

/-- C10 (counterexample): with an empty replica instance id, a reserve
value that cannot be decoded as a string makes tryToReserveKey compare
the zero-value owner string against the empty instance id and return
true, and owned_by_me on a fresh id returns a spurious true; this
falsifies the claim that an undecodable reserve value always yields
false. -/
theorem C10_undecodable_counterexample :
    tryToReserveKey ⟨"", []⟩ (some KVVal.undecodable) = true
    ∧ (OwnedByMe ⟨"", []⟩ "x" (some KVVal.undecodable)).result = true := by decide

/-- C10 (amended): when the KV reserve call returns no value the result
is false, and when it returns a value that cannot be decoded as a string
the result is false provided the replica instance id is non-empty; the
same holds for owned_by_me on an id with no existing entry. -/
theorem C10_tryToReserveKey_amended (da : DeviceOwnership) (id : String)
    (res : Option KVVal) (hinst : da.instanceId ≠ "")
    (hfail : res = none ∨ res = some KVVal.undecodable)
    (hfresh : da.deviceMap.lookup id = none) :
    tryToReserveKey da res = false ∧ (OwnedByMe da id res).result = false := by
  have ht : tryToReserveKey da res = false := by
    rcases hfail with hf | hf
    · simp [hf, tryToReserveKey]
    · simp only [hf, tryToReserveKey, kvToString]
      exact beq_eq_false_iff_ne.mpr (fun hh => hinst hh.symm)
  refine ⟨ht, ?_⟩
  simp [OwnedByMe, getOwnership, hfresh, ht]

/-- Witness for C10 (amended) on a missing reserve value. -/
theorem C10_tryToReserveKey_amended_witness :
    tryToReserveKey ⟨"core1", []⟩ none = false
    ∧ (OwnedByMe ⟨"core1", []⟩ "x" none).result = false :=
  C10_tryToReserveKey_amended ⟨"core1", []⟩ "x" none (by decide) (Or.inl rfl) rfl

/-! ## Claim C3 -/

/-- C3 (counterexample): loading the registry with one real adapter and
no device types installs the sentinel device type row, exactly as the Go
loader does when the KV store holds adapters but no device types; then
getAdapterName on the sentinel device type returns the sentinel adapter
id, because the lookup performs no sentinel filtering; this falsifies
the claim that get_adapter_name never returns the sentinel adapter id. -/
theorem C3_getAdapterName_counterexample :
    getAdapterName
      (addDeviceTypes (addAdapter ⟨[], []⟩ ⟨"adapterX", none⟩)
        [⟨SentinelDevicetypeID, SentinelAdapterID⟩])
      SentinelDevicetypeID
      = .ok SentinelAdapterID := by rfl

/-- C3 (amended): in every state of the adapter registry, list_adapters
never reports the sentinel adapter and list_device_types never reports
the sentinel device type; get_adapter_name however performs no sentinel
filtering and returns whatever adapter id the device-type map binds,
including the sentinel adapter id. -/
theorem C3_sentinel_filtering_amended (aMgr : AdapterManager) :
    ((listAdapters aMgr).all (fun a => a.id != SentinelAdapterID)) = true
    ∧ ((listDeviceTypes aMgr).all (fun dt => dt.id != SentinelDevicetypeID)) = true
    ∧ (∀ dt a, aMgr.deviceTypeToAdapterMap.lookup dt = some a →
        getAdapterName aMgr dt = .ok a) := by
  refine ⟨?_, ?_, ?_⟩
  · rw [List.all_eq_true]
    intro a ha
    simp only [listAdapters, List.mem_filterMap] at ha
    obtain ⟨p, _, hp⟩ := ha
    split at hp
    · exact absurd hp (by simp)
    · next hne =>
      injection hp with hpa
      subst hpa
      simpa using hne
  · rw [List.all_eq_true]
    intro dt hdt
    simp only [listDeviceTypes, List.mem_filterMap] at hdt
    obtain ⟨p, _, hp⟩ := hdt
    split at hp
    · next aa _ =>
      split at hp
      · next dt0 _ =>
        split at hp
        · exact absurd hp (by simp)
        · next hne =>
          injection hp with hpd
          subst hpd
          simpa using hne
      · exact absurd hp (by simp)
    · exact absurd hp (by simp)
  · intro dt a h
    simp [getAdapterName, h]

/-- Witness for C3 (amended) at a registry holding one real adapter and
one bound device type. -/
theorem C3_sentinel_filtering_amended_witness :
    ((listAdapters ⟨[("a1", newAdapterAgent ⟨"a1", none⟩ none)], [("dt1", "a1")]⟩).all
        (fun a => a.id != SentinelAdapterID)) = true
    ∧ ((listDeviceTypes ⟨[("a1", newAdapterAgent ⟨"a1", none⟩ none)],
          [("dt1", "a1")]⟩).all (fun dt => dt.id != SentinelDevicetypeID)) = true
    ∧ getAdapterName ⟨[("a1", newAdapterAgent ⟨"a1", none⟩ none)], [("dt1", "a1")]⟩ "dt1"
      = .ok "a1" :=
  ⟨(C3_sentinel_filtering_amended
      ⟨[("a1", newAdapterAgent ⟨"a1", none⟩ none)], [("dt1", "a1")]⟩).1,
   (C3_sentinel_filtering_amended
      ⟨[("a1", newAdapterAgent ⟨"a1", none⟩ none)], [("dt1", "a1")]⟩).2.1,
   (C3_sentinel_filtering_amended
      ⟨[("a1", newAdapterAgent ⟨"a1", none⟩ none)], [("dt1", "a1")]⟩).2.2 "dt1" "a1" rfl⟩

/-! ## Claim C6 -/

/-- C6 (counterexample): a new time one step before the smallest
encodable timestamp (before year 1), evaluated at now equal to the unix
epoch with no stored value, satisfies the condition the claim states
(not in the future, stored value absent), yet the record is left
unchanged because ptypes.TimestampProto cannot encode the new time; this
falsifies the update-iff condition as claimed. -/
theorem C6_update_counterexample :
    claimUpdateCond ⟨"a1", none⟩ (tsMinNs - 1) 0 = true
    ∧ updateCommunicationTime ⟨"a1", none⟩ (tsMinNs - 1) 0 = ⟨"a1", none⟩ := by decide

/-- C6 (amended): last_communication is updated iff the condition the
claim states holds and additionally the new time is encodable as a
timestamp proto (otherwise the update is silently ignored); in every
case the stored value either stays unchanged or becomes the new time,
which is then not beyond now, and a validly stored value never moves
backwards. -/
theorem C6_updateCommunicationTime_amended (adapter : Adapter) (t now : Int) :
    (updateCommunicationTime adapter t now
      = if claimUpdateCond adapter t now && validTs t
        then { adapter with lastCommunication := some t } else adapter)
    ∧ ((updateCommunicationTime adapter t now).lastCommunication
          = adapter.lastCommunication
        ∨ ((updateCommunicationTime adapter t now).lastCommunication = some t
            ∧ t ≤ now))
    ∧ (storedDecodeOk adapter.lastCommunication = false
        ∨ adapter.lastCommunication.getD 0
            ≤ (updateCommunicationTime adapter t now).lastCommunication.getD 0) := by
  have hcond : (t ≤ now ∧ (storedDecodeOk adapter.lastCommunication = false
        ∨ adapter.lastCommunication.getD 0 < t))
      ↔ claimUpdateCond adapter t now = true := by
    simp [claimUpdateCond]
  refine ⟨?_, ?_, ?_⟩
  · by_cases hP : t ≤ now ∧ (storedDecodeOk adapter.lastCommunication = false
        ∨ adapter.lastCommunication.getD 0 < t)
    · have hb : claimUpdateCond adapter t now = true := hcond.mp hP
      cases hv : validTs t with
      | true => simp [updateCommunicationTime, not_lt, hP, hb, hv]
      | false => simp [updateCommunicationTime, not_lt, hP, hb, hv]
    · have hb : claimUpdateCond adapter t now = false := by
        cases hcb : claimUpdateCond adapter t now
        · rfl
        · exact absurd (hcond.mpr hcb) hP
      simp [updateCommunicationTime, not_lt, hP, hb]
  · by_cases hP : t ≤ now ∧ (storedDecodeOk adapter.lastCommunication = false
        ∨ adapter.lastCommunication.getD 0 < t)
    · cases hv : validTs t with
      | true =>
        right
        refine ⟨by simp [updateCommunicationTime, not_lt, hP, hv], hP.1⟩
      | false =>
        left
        simp [updateCommunicationTime, not_lt, hP, hv]
    · left
      simp [updateCommunicationTime, not_lt, hP]
  · by_cases hdec : storedDecodeOk adapter.lastCommunication = false
    · exact Or.inl hdec
    · right
      by_cases hP : t ≤ now ∧ (storedDecodeOk adapter.lastCommunication = false
          ∨ adapter.lastCommunication.getD 0 < t)
      · rcases hP.2 with hd | hlt
        · exact absurd hd hdec
        · cases hv : validTs t with
          | true =>
            have hupd : (updateCommunicationTime adapter t now).lastCommunication
                = some t := by
              simp [updateCommunicationTime, not_lt, hP, hv]
            rw [hupd]
            exact le_of_lt hlt
          | false =>
            have hupd : (updateCommunicationTime adapter t now).lastCommunication
                = adapter.lastCommunication := by
              simp [updateCommunicationTime, not_lt, hP, hv]
            rw [hupd]
      · have hupd : (updateCommunicationTime adapter t now).lastCommunication
            = adapter.lastCommunication := by
          simp [updateCommunicationTime, not_lt, hP]
        rw [hupd]

/-! ## Claim C5 -/

/-- C5 (counterexample): creating a non-root device d (root=false) and
reading it back returns a record whose root flag is true, because
createDevice stamps root=true before building the agent; the returned
root therefore differs from the root of the d that was passed in,
falsifying the claimed round-trip equality of the root field. -/
theorem C5_create_get_counterexample :
    (GetDevice 2 (createDevice ⟨[], []⟩ { devBase with id := "d0", dtype := "olt" }).fst
        "d0").snd
      = .ok { devBase with id := "d0", dtype := "olt", root := true }
    ∧ ({ devBase with id := "d0", dtype := "olt" } : Device).root = false :=
  ⟨rfl, rfl⟩

/-- C5 (amended): create_device stamps root=true; for every device d
whose id is not yet resident, create_device(d) followed by get(d.id)
returns exactly d with root set to true, so id, type and proxy address
round-trip and the returned root is true (equal to d's root only when d
already is a root device); the value create_device itself returns is the
same stamped record. -/
theorem C5_create_get_amended (dMgr : DeviceManager) (d : Device) (fuel : Nat)
    (hfresh : dMgr.deviceAgents.lookup d.id = none) :
    (GetDevice fuel (createDevice dMgr d).fst d.id).snd = .ok { d with root := true }
    ∧ (createDevice dMgr d).snd = { d with root := true } := by
  constructor
  · have hl : ((createDevice dMgr d).fst).deviceAgents.lookup d.id
        = some ⟨d.id, { d with root := true }⟩ := by
      simp [createDevice, addDeviceAgentToMap, hfresh, lookup_assocInsert_self]
    simp [GetDevice, getDeviceAgent, hl]
  · rfl

/-- Witness for C5 (amended) on an empty manager. -/
theorem C5_create_get_amended_witness :
    (GetDevice 2 (createDevice ⟨[], []⟩ { devBase with id := "d1", dtype := "onu" }).fst
        "d1").snd
      = .ok { ({ devBase with id := "d1", dtype := "onu" } : Device) with root := true }
    ∧ (createDevice ⟨[], []⟩ { devBase with id := "d1", dtype := "onu" }).snd
      = { ({ devBase with id := "d1", dtype := "onu" } : Device) with root := true } :=
  C5_create_get_amended ⟨[], []⟩ { devBase with id := "d1", dtype := "onu" } 2 rfl

/-! ## Claim C7: helper lemmas about the reconcile loop -/

theorem reconcileIds_kv (dMgr : DeviceManager) (items : List String) :
    (reconcileIds dMgr items).fst.kv = dMgr.kv := by
  induction items generalizing dMgr with
  | nil => rfl
  | cons id rest ih =>
    cases hc : IsDeviceInCache dMgr id with
    | true => simp [reconcileIds, hc, ih]
    | false =>
      cases hkv : dMgr.kv.lookup id with
      | some d => simp [reconcileIds, hc, hkv, ih]
      | none => simp [reconcileIds, hc, hkv, ih]

theorem reconcileIds_le (dMgr : DeviceManager) (items : List String) :
    (reconcileIds dMgr items).snd ≤ items.length := by
  induction items generalizing dMgr with
  | nil => simp [reconcileIds]
  | cons id rest ih =>
    cases hc : IsDeviceInCache dMgr id with
    | true =>
      have h2 := ih dMgr
      simp only [reconcileIds, hc, if_true, List.length_cons]
      simp only [List.length_cons] at h2 ⊢
      omega
    | false =>
      cases hkv : dMgr.kv.lookup id with
      | some d =>
        have h2 := ih
          { dMgr with deviceAgents := addDeviceAgentToMap dMgr.deviceAgents ⟨id, d⟩ }
        simp only [reconcileIds, hc, hkv, List.length_cons]
        simp only [Bool.false_eq_true, if_false]
        omega
      | none =>
        have h2 := ih dMgr
        simp only [reconcileIds, hc, hkv, List.length_cons]
        simp only [Bool.false_eq_true, if_false]
        omega

theorem reconcileIds_lookup_isSome (items : List String) (dMgr : DeviceManager)
    (id : String) :
    ((reconcileIds dMgr items).fst.deviceAgents.lookup id).isSome
      = ((dMgr.deviceAgents.lookup id).isSome
          || (decide (id ∈ items) && (dMgr.kv.lookup id).isSome)) := by
  induction items generalizing dMgr with
  | nil => simp [reconcileIds]
  | cons id0 rest ih =>
    by_cases hid : id = id0
    · subst hid
      cases hc : IsDeviceInCache dMgr id with
      | true =>
        have h2 := ih dMgr
        have hcs : (dMgr.deviceAgents.lookup id).isSome = true := hc
        simp [reconcileIds, hc, h2, hcs]
      | false =>
        have hcs : (dMgr.deviceAgents.lookup id).isSome = false := hc
        cases hkv : dMgr.kv.lookup id with
        | some d =>
          have h2 := ih
            { dMgr with deviceAgents := addDeviceAgentToMap dMgr.deviceAgents ⟨id, d⟩ }
          have hnone : dMgr.deviceAgents.lookup id = none := by
            cases hl : dMgr.deviceAgents.lookup id with
            | none => rfl
            | some a => rw [hl] at hcs; simp at hcs
          have hin : ((addDeviceAgentToMap dMgr.deviceAgents ⟨id, d⟩).lookup id)
              = some ⟨id, d⟩ := by
            simp only [addDeviceAgentToMap, hnone]
            exact lookup_assocInsert_self _ _ _
          simp [reconcileIds, hc, hkv, h2, hin, hcs]
        | none =>
          have h2 := ih dMgr
          simp [reconcileIds, hc, hkv, h2, hcs]
    · have hne : (id ∈ id0 :: rest) = (id ∈ rest) := by
        simp [List.mem_cons, hid]
      cases hc : IsDeviceInCache dMgr id0 with
      | true =>
        have h2 := ih dMgr
        simp [reconcileIds, hc, h2, hne]
      | false =>
        cases hkv : dMgr.kv.lookup id0 with
        | some d =>
          have h2 := ih
            { dMgr with deviceAgents := addDeviceAgentToMap dMgr.deviceAgents ⟨id0, d⟩ }
          have hpres : ((addDeviceAgentToMap dMgr.deviceAgents ⟨id0, d⟩).lookup id)
              = dMgr.deviceAgents.lookup id := by
            simp only [addDeviceAgentToMap]
            cases hl : dMgr.deviceAgents.lookup id0 with
            | some a => rfl
            | none => exact lookup_assocInsert_ne _ _ _ _ hid
          simp [reconcileIds, hc, hkv, h2, hpres, hne]
        | none =>
          have h2 := ih dMgr
          simp [reconcileIds, hc, hkv, h2, hne]

/-! ## Claim C7 -/

/-- C7 (counterexample): a present but empty id list is not rejected:
ReconcileDevices returns success (no error) for it, because the code
only checks the ids argument against nil and an empty list trivially
reconciles zero of zero ids; this falsifies the claim that an empty id
list yields invalid-argument. -/
theorem C7_reconcile_empty_counterexample :
    (ReconcileDevices ⟨[], []⟩ (some [])).snd = none := by rfl

/-- C7 (amended): reconcile returns invalid-argument only when the id
list is absent (nil); given a present, possibly empty, list it hydrates
an agent for every id not already resident that has a KV record
(already-resident ids count as reconciled), returns data-loss exactly
when the number of ids reconciled is less than the number requested, and
success exactly when every id was reconciled - in particular success,
not invalid-argument, for the empty list. -/
theorem C7_ReconcileDevices_amended (dMgr : DeviceManager)
    (ids : Option (List String)) :
    (ids = none → (ReconcileDevices dMgr ids).snd
        = some (GoErr.grpc .invalidArgument "empty-list-of-ids"))
    ∧ (∀ items, ids = some items →
        (reconcileIds dMgr items).snd ≤ items.length
        ∧ ((ReconcileDevices dMgr ids).snd = none
            ↔ (reconcileIds dMgr items).snd = items.length)
        ∧ ((ReconcileDevices dMgr ids).snd
              = some (GoErr.grpc .dataLoss "less-device-reconciled")
            ↔ (reconcileIds dMgr items).snd < items.length)
        ∧ (∀ id, id ∈ items →
            (((ReconcileDevices dMgr ids).fst.deviceAgents.lookup id).isSome)
              = ((dMgr.deviceAgents.lookup id).isSome
                  || (dMgr.kv.lookup id).isSome))) := by
  constructor
  · intro h
    rw [h]
    rfl
  · intro items h
    subst h
    have hle := reconcileIds_le dMgr items
    have hfst : (ReconcileDevices dMgr (some items)).fst = (reconcileIds dMgr items).fst := by
      simp only [ReconcileDevices]
      by_cases hx : items.length ≠ (reconcileIds dMgr items).snd
      · simp [hx]
      · simp [hx]
    refine ⟨hle, ?_, ?_, ?_⟩
    · simp only [ReconcileDevices]
      by_cases hx : items.length ≠ (reconcileIds dMgr items).snd
      · simp [hx]
        omega
      · simp [hx]
        omega
    · simp only [ReconcileDevices]
      by_cases hx : items.length ≠ (reconcileIds dMgr items).snd
      · simp [hx]
        omega
      · simp [hx]
        omega
    · intro id hid
      rw [hfst, reconcileIds_lookup_isSome items dMgr id]
      simp [hid]

/-- Witness for C7 (amended): one resident id, one id hydrated from KV,
one unknown id; two of three reconciled yields data-loss. -/
theorem C7_ReconcileDevices_amended_witness :
    (reconcileIds
        ⟨[("a", ⟨"a", devBase⟩)], [("b", devBase)]⟩ ["a", "b", "c"]).snd ≤ 3
    ∧ ((ReconcileDevices ⟨[("a", ⟨"a", devBase⟩)], [("b", devBase)]⟩
          (some ["a", "b", "c"])).snd = none
        ↔ (reconcileIds ⟨[("a", ⟨"a", devBase⟩)], [("b", devBase)]⟩
            ["a", "b", "c"]).snd = 3)
    ∧ ((ReconcileDevices ⟨[("a", ⟨"a", devBase⟩)], [("b", devBase)]⟩
          (some ["a", "b", "c"])).snd
            = some (GoErr.grpc .dataLoss "less-device-reconciled")
        ↔ (reconcileIds ⟨[("a", ⟨"a", devBase⟩)], [("b", devBase)]⟩
            ["a", "b", "c"]).snd < 3)
    ∧ (∀ id, id ∈ ["a", "b", "c"] →
        (((ReconcileDevices ⟨[("a", ⟨"a", devBase⟩)], [("b", devBase)]⟩
            (some ["a", "b", "c"])).fst.deviceAgents.lookup id).isSome)
          = ((([("a", ⟨"a", devBase⟩)] : List (String × DeviceAgent)).lookup id).isSome
              || (([("b", devBase)] : List (String × Device)).lookup id).isSome)) :=
  (C7_ReconcileDevices_amended ⟨[("a", ⟨"a", devBase⟩)], [("b", devBase)]⟩
    (some ["a", "b", "c"])).2 ["a", "b", "c"] rfl

/-! ## Claim C8: helper lemmas about the handler loop -/

theorem executedSpec_cons_some (e : GoErr) (l : List (Option GoErr)) :
    executedSpec (some e :: l) = 1 := by
  simp [executedSpec, List.takeWhile_cons]

theorem executedSpec_cons_none (l : List (Option GoErr)) :
    executedSpec (none :: l) = executedSpec l + 1 := by
  simp only [executedSpec, List.takeWhile_cons, Option.isNone_none, if_true,
    List.length_cons]
  by_cases hp : (l.takeWhile (fun o => o.isNone)).length = l.length
  · simp [hp]
  · simp [hp]

theorem runHandlers_spec (d : Device) (hs : List TransitionHandler) :
    (runHandlers d hs).fst = firstErr (hs.map (fun h => h d))
    ∧ (runHandlers d hs).snd = executedSpec (hs.map (fun h => h d)) := by
  induction hs with
  | nil => exact ⟨rfl, rfl⟩
  | cons h rest ih =>
    cases hh : h d with
    | some err =>
      constructor
      · simp [runHandlers, hh, firstErr]
      · simp [runHandlers, hh, executedSpec_cons_some]
    | none =>
      constructor
      · simp [runHandlers, hh, firstErr] at ih ⊢
        exact ih.1
      · simp [runHandlers, hh, executedSpec_cons_none]
        exact ih.2

/-! ## Claim C8 -/

/-- C8 (counterexample): with the looked-up handler list being exactly
the notAllowed handler, processTransition returns the plain error
Transition-not-allowed produced by errors.New; that error carries no
grpc status code and in particular is not a failed-precondition status
error, falsifying the claim that the update is rejected with a
failed-precondition error. -/
theorem C8_notAllowed_counterexample :
    processTransition (some [notAllowed]) devBase
      = some (GoErr.plain "Transition-not-allowed")
    ∧ (processTransition (some [notAllowed]) devBase).map GoErr.isFailedPrecondition
      = some false :=
  ⟨rfl, rfl⟩

/-- C8 (amended): when the lookup yields no handlers processTransition
returns success; otherwise the handlers run sequentially and the first
handler error is returned, aborting the remaining handlers (the loop
executes exactly the failing handler and those before it); a notAllowed
handler list yields the plain Transition-not-allowed error, not a
failed-precondition status error. -/
theorem C8_processTransition_amended (handlers : Option (List TransitionHandler))
    (d : Device) :
    (handlers = none → processTransition handlers d = none)
    ∧ (∀ hs, handlers = some hs →
        processTransition handlers d = firstErr (hs.map (fun h => h d))
        ∧ (runHandlers d hs).snd = executedSpec (hs.map (fun h => h d)))
    ∧ processTransition (some [notAllowed]) d
        = some (GoErr.plain "Transition-not-allowed") := by
  refine ⟨?_, ?_, rfl⟩
  · intro h
    rw [h]
    rfl
  · intro hs h
    subst h
    exact ⟨(runHandlers_spec d hs).1, (runHandlers_spec d hs).2⟩

/-- Witness for C8 (amended) on a two-handler list whose first handler
fails: the error is the first one and only one handler runs. -/
theorem C8_processTransition_amended_witness :
    processTransition (some [notAllowed, fun _ => none]) devBase
      = firstErr ([notAllowed, fun _ => none].map (fun h => h devBase))
    ∧ (runHandlers devBase [notAllowed, fun _ => none]).snd
      = executedSpec ([notAllowed, fun _ => none].map (fun h => h devBase)) :=
  (C8_processTransition_amended (some [notAllowed, fun _ => none]) devBase).2.1
    [notAllowed, fun _ => none] rfl

/-! ## Claim C4: helper lemmas about the child search -/

theorem childMatches_eq_claim (dv : Device) (serialNo : String)
    (onuId parentPort : Int)
    (h1 : 0 ≤ onuId) (h2 : onuId < 4294967296)
    (h3 : 0 ≤ parentPort) (h4 : parentPort < 4294967296) :
    childMatches dv serialNo onuId parentPort
      = claimChildMatch dv serialNo onuId parentPort := by
  have hOnu : uint32ofInt onuId = onuId.toNat := by
    simp [uint32ofInt, Int.emod_eq_of_lt h1 h2]
  have hPort : uint32ofInt parentPort = parentPort.toNat := by
    simp [uint32ofInt, Int.emod_eq_of_lt h3 h4]
  have ha : (dv.proxyAddress.onuId == uint32ofInt onuId)
      = ((dv.proxyAddress.onuId : Int) == onuId) := by
    rw [hOnu]
    by_cases he : dv.proxyAddress.onuId = onuId.toNat
    · have hcast : (dv.proxyAddress.onuId : Int) = onuId := by
        rw [he, Int.toNat_of_nonneg h1]
      simp [he, hcast, h1]
    · have hcast : ¬ ((dv.proxyAddress.onuId : Int) = onuId) := by
        intro hc
        apply he
        have := congrArg Int.toNat hc
        simpa using this
      simp [he, hcast, h1]
  have hb : (dv.parentPortNo == uint32ofInt parentPort)
      = ((dv.parentPortNo : Int) == parentPort) := by
    rw [hPort]
    by_cases he : dv.parentPortNo = parentPort.toNat
    · have hcast : (dv.parentPortNo : Int) = parentPort := by
        rw [he, Int.toNat_of_nonneg h3]
      simp [he, hcast, h3]
    · have hcast : ¬ ((dv.parentPortNo : Int) = parentPort) := by
        intro hc
        apply he
        have := congrArg Int.toNat hc
        simpa using this
      simp [he, hcast, h3]
  simp only [childMatches, claimChildMatch, ha, hb]

theorem findFirstChild_resident (fuel : Nat) (dMgr : DeviceManager)
    (serialNo : String) (onuId parentPort : Int) (cs : List String)
    (hres : ∀ c ∈ cs, (dMgr.deviceAgents.lookup c).isSome = true) :
    findFirstChild fuel dMgr serialNo onuId parentPort cs
      = (dMgr,
         (cs.filterMap (fun c => (dMgr.deviceAgents.lookup c).map DeviceAgent.device)).find?
           (fun dv => childMatches dv serialNo onuId parentPort)) := by
  induction cs with
  | nil => rfl
  | cons c rest ih =>
    have hc := hres c (List.mem_cons_self c rest)
    obtain ⟨ag, hag⟩ := Option.isSome_iff_exists.mp hc
    have hgd : GetDevice fuel dMgr c = (dMgr, .ok ag.device) := by
      simp [GetDevice, getDeviceAgent, hag]
    have hrest : ∀ x ∈ rest, (dMgr.deviceAgents.lookup x).isSome = true :=
      fun x hx => hres x (List.mem_cons_of_mem c hx)
    cases hm : childMatches ag.device serialNo onuId parentPort with
    | true =>
      simp [findFirstChild, hgd, hm, List.filterMap_cons, hag, List.find?]
    | false =>
      simp only [findFirstChild, hgd]
      rw [hm]
      simp only [if_false, Bool.false_eq_true]
      rw [ih hrest]
      simp [List.filterMap_cons, hag, List.find?, hm]

/-! ## Claim C4 -/

/-- C4: over resident devices and in-range arguments (onu id and parent
port denote uint32 values), GetChildDevice returns the first enumerated
child device satisfying the matching rule as the claim words it - an onu
id match requires both the proxy-address onu id to equal onuId and the
parent port to equal parentPortNo, a serial match requires equal serial
numbers, both being required when onuId is positive and serialNo
non-empty and either sufficing otherwise - and a not-found error when no
child matches (also when the parent has no children). -/
theorem C4_GetChildDevice_correct (fuel : Nat) (dMgr : DeviceManager)
    (parentId serialNo : String) (onuId parentPort : Int) (pAgent : DeviceAgent)
    (hp : dMgr.deviceAgents.lookup parentId = some pAgent)
    (hres : ∀ c ∈ getAllChildDeviceIds pAgent.device,
        (dMgr.deviceAgents.lookup c).isSome = true)
    (h1 : 0 ≤ onuId) (h2 : onuId < 4294967296)
    (h3 : 0 ≤ parentPort) (h4 : parentPort < 4294967296) :
    (GetChildDevice fuel dMgr parentId serialNo onuId parentPort).snd
      = match ((getAllChildDeviceIds pAgent.device).filterMap
            (fun c => (dMgr.deviceAgents.lookup c).map DeviceAgent.device)).find?
            (fun dv => claimChildMatch dv serialNo onuId parentPort) with
        | some dv => .ok dv
        | none => .error (.grpc .notFound parentId) := by
  have hgdp : GetDevice fuel dMgr parentId = (dMgr, .ok pAgent.device) := by
    simp [GetDevice, getDeviceAgent, hp]
  have hff := findFirstChild_resident fuel dMgr serialNo onuId parentPort
    (getAllChildDeviceIds pAgent.device) hres
  have hfind : ((getAllChildDeviceIds pAgent.device).filterMap
        (fun c => (dMgr.deviceAgents.lookup c).map DeviceAgent.device)).find?
        (fun dv => childMatches dv serialNo onuId parentPort)
      = ((getAllChildDeviceIds pAgent.device).filterMap
          (fun c => (dMgr.deviceAgents.lookup c).map DeviceAgent.device)).find?
          (fun dv => claimChildMatch dv serialNo onuId parentPort) := by
    congr 1
    funext dv
    exact childMatches_eq_claim dv serialNo onuId parentPort h1 h2 h3 h4
  simp only [GetChildDevice, hgdp]
  cases hcs : getAllChildDeviceIds pAgent.device with
  | nil => simp
  | cons c rest =>
    rw [hcs] at hff hfind
    simp only [List.length_cons]
    rw [if_neg (by simp)]
    rw [hff, hfind]
    cases hf : ((c :: rest).filterMap
        (fun x => (dMgr.deviceAgents.lookup x).map DeviceAgent.device)).find?
        (fun dv => claimChildMatch dv serialNo onuId parentPort) with
    | some dv => rfl
    | none => rfl

/-- Witness for C4 at a concrete parent with one child matched by both
onu id and serial number. -/
theorem C4_GetChildDevice_correct_witness :
    (GetChildDevice 3
        ⟨[("p", ⟨"p", ⟨"p", "", false, "", 0, "", "", .unknown, ⟨"", "", 0, 0⟩,
            [⟨1, .pon, [⟨"c1", 1⟩]⟩]⟩⟩),
          ("c1", ⟨"c1", ⟨"c1", "", false, "", 1, "SN1", "", .unknown,
            ⟨"p", "", 0, 3⟩, []⟩⟩)], []⟩
        "p" "SN1" 3 1).snd
      = .ok ⟨"c1", "", false, "", 1, "SN1", "", .unknown, ⟨"p", "", 0, 3⟩, []⟩ := by
  rw [C4_GetChildDevice_correct 3
    ⟨[("p", ⟨"p", ⟨"p", "", false, "", 0, "", "", .unknown, ⟨"", "", 0, 0⟩,
        [⟨1, .pon, [⟨"c1", 1⟩]⟩]⟩⟩),
      ("c1", ⟨"c1", ⟨"c1", "", false, "", 1, "SN1", "", .unknown,
        ⟨"p", "", 0, 3⟩, []⟩⟩)], []⟩
    "p" "SN1" 3 1
    ⟨"p", ⟨"p", "", false, "", 0, "", "", .unknown, ⟨"", "", 0, 0⟩,
      [⟨1, .pon, [⟨"c1", 1⟩]⟩]⟩⟩
    rfl (by decide) (by decide) (by decide) (by decide) (by decide)]
  rfl

end Voltha
